import Mathlib

/-
Verification development for the DreamJournal browser-verification scripts.

The repository holds two Playwright scripts:
  jules-scratch/verification/verify_flash.py    (async, function main)
  jules-scratch/verification/verify_spacing.py  (sync, function verify_spacing
                                                 plus module-level boilerplate)

Shallow embedding: each script body is a list of browser-automation steps,
in source order.  The external browser/application behaviour (which
assertions pass, which operations raise) is an oracle structure Env.
Execution is fail-fast: the first raising step aborts the remaining steps,
exactly as an uncaught Python exception aborts the rest of a function body.
Execution yields the list of observable events of the steps that ran.

Library semantics relied on (documented Playwright behaviour, noted where
used): a locator assertion to_be_visible passes exactly when the locator
resolves to exactly one element and that element becomes visible before the
timeout (zero matches time out, several matches raise a strict-mode
violation); BrowserContext.add_init_script runs the script before any page
script of pages of that context; each browser context has isolated storage
and Browser.new_page creates its own fresh context; stopping the Playwright
driver (leaving the with-block) terminates every browser it launched.
-/

namespace DreamVerify

/-- DOM locators used by the scripts: CSS id selectors such as #journalTab,
the class-plus-has_text locator page.locator(".entry", has_text=...),
get_by_role("button", name=...), a tag selector such as "textarea", and
child locators scoped inside a parent locator. -/
inductive Selector where
  | id (name : String)
  | classHasText (cls text : String)
  | roleButton (label : String)
  | tag (t : String)
  | child (parent sub : Selector)
  deriving DecidableEq

/-- A localStorage write performed by a context init script: the JS source
localStorage.setItem(key, value) is modelled by its key/value pair. -/
structure StorageSet where
  key : String
  value : String
  deriving DecidableEq

/-- One browser-automation step of a script body, in source order.  Pages
and contexts are numbered in order of creation; Step.newPage pg ctx records
that page pg lives in context ctx. -/
inductive Step where
  | launch
  | newContext (ctx : Nat)
  | addInitScript (ctx : Nat) (s : StorageSet)
  | newPage (pg ctx : Nat)
  | onConsole (pg : Nat)
  | goto (pg : Nat) (url : String)
  | fill (pg : Nat) (sel : Selector) (text : String)
  | click (pg : Nat) (sel : Selector)
  | dispatchEvent (pg : Nat) (sel : Selector) (eventName : String)
  | expectVisible (pg : Nat) (sel : Selector) (timeoutMs : Nat)
  | expectNotVisible (pg : Nat) (sel : Selector) (timeoutMs : Nat)
  | screenshotPage (pg : Nat) (path : String)
  | screenshotElem (pg : Nat) (sel : Selector) (path : String)
  | closePage (pg : Nat)
  | closeBrowser
  deriving DecidableEq

/-- Observable events emitted by steps that ran. -/
inductive Event where
  | launched
  | contextCreated (ctx : Nat)
  | initScriptAdded (ctx : Nat) (s : StorageSet)
  | pageCreated (pg ctx : Nat)
  | consoleSubscribed (pg : Nat)
  | navigated (pg : Nat) (url : String)
  | filled (pg : Nat) (sel : Selector) (text : String)
  | clicked (pg : Nat) (sel : Selector)
  | dispatched (pg : Nat) (sel : Selector) (eventName : String)
  | assertionPassed (pg : Nat) (sel : Selector)
  | negAssertionPassed (pg : Nat) (sel : Selector)
  | screenshotWritten (path : String)
  | pageClosed (pg : Nat)
  | browserClosed
  | browserTerminated
  deriving DecidableEq

/-- Oracle for the external browser and application: which operations
succeed, how locators resolve, what becomes visible, and what the loaded
page prints to its console.  initiallyVisible records which element the
application shows first after load; no script step consults it, it only
lets claims about initial visibility be stated. -/
structure Env where
  launchOk : Bool
  newContextOk : Nat → Bool
  initScriptOk : Nat → Bool
  newPageOk : Nat → Bool
  gotoOk : Nat → Bool
  fillOk : Nat → Selector → Bool
  clickOk : Nat → Selector → Bool
  dispatchOk : Nat → Selector → String → Bool
  visibleWithin : Nat → Selector → Nat → Bool
  notVisibleWithin : Nat → Selector → Nat → Bool
  matchCount : Nat → Selector → Nat
  screenshotOk : String → Bool
  closePageOk : Nat → Bool
  closeOk : Bool
  initiallyVisible : Nat → Selector → Bool
  consoleMessages : Nat → List String

/-- Whether a step succeeds (does not raise) under the oracle.  A
to_be_visible assertion passes exactly when the locator resolves to one
element and it becomes visible within the timeout (zero matches time out,
several raise a strict-mode violation). -/
def stepOk (env : Env) : Step → Bool
  | .launch => env.launchOk
  | .newContext c => env.newContextOk c
  | .addInitScript c _ => env.initScriptOk c
  | .newPage p _ => env.newPageOk p
  | .onConsole _ => true
  | .goto p _ => env.gotoOk p
  | .fill p s _ => env.fillOk p s
  | .click p s => env.clickOk p s
  | .dispatchEvent p s e => env.dispatchOk p s e
  | .expectVisible p s t => env.matchCount p s == 1 && env.visibleWithin p s t
  | .expectNotVisible p s t => env.notVisibleWithin p s t
  | .screenshotPage _ path => env.screenshotOk path
  | .screenshotElem _ _ path => env.screenshotOk path
  | .closePage p => env.closePageOk p
  | .closeBrowser => env.closeOk

/-- The events a step emits when it runs to completion. -/
def stepEvents : Step → List Event
  | .launch => [.launched]
  | .newContext c => [.contextCreated c]
  | .addInitScript c s => [.initScriptAdded c s]
  | .newPage p c => [.pageCreated p c]
  | .onConsole p => [.consoleSubscribed p]
  | .goto p u => [.navigated p u]
  | .fill p s txt => [.filled p s txt]
  | .click p s => [.clicked p s]
  | .dispatchEvent p s e => [.dispatched p s e]
  | .expectVisible p s _ => [.assertionPassed p s]
  | .expectNotVisible p s _ => [.negAssertionPassed p s]
  | .screenshotPage _ path => [.screenshotWritten path]
  | .screenshotElem _ _ path => [.screenshotWritten path]
  | .closePage p => [.pageClosed p]
  | .closeBrowser => [.browserClosed]

/-- All steps of the list run without raising. -/
def execOk (env : Env) : List Step → Bool
  | [] => true
  | s :: rest => stepOk env s && execOk env rest

/-- Fail-fast execution trace: events of the steps that ran, stopping at
the first step that raises (that step emits nothing). -/
def execTrace (env : Env) : List Step → List Event
  | [] => []
  | s :: rest =>
    if stepOk env s then stepEvents s ++ execTrace env rest else []

/-- Events the step list could emit if every step ran. -/
def eventsOf : List Step → List Event
  | [] => []
  | s :: rest => stepEvents s ++ eventsOf rest

/-- The target URL: os.path.abspath("index.html") under a file scheme.
The absolute prefix depends on the invocation directory, so it is modelled
by the entry-point name it always ends in. -/
def indexUrl : String := "file://index.html"

/-- The init script of verify_flash.py line 29: it stores under key
dreamJournalPinHash the quoted string literal "somehash" (quotes included
in the stored value). -/
def flashInitScript : StorageSet :=
  { key := "dreamJournalPinHash", value := "\"somehash\"" }

/-- Body of async def main in verify_flash.py, lines 7-44, one step per
browser call in source order.  Browser.new_page at line 15 creates its own
fresh context, numbered 1; the explicit new_context at line 28 is
context 2. -/
def verify_flash_main : List Step :=
  [ .launch
  , .newPage 1 1
  , .goto 1 indexUrl
  , .expectVisible 1 (.id "journalTab") 5000
  , .screenshotPage 1 "jules-scratch/verification/unlocked_view.png"
  , .closePage 1
  , .newContext 2
  , .addInitScript 2 flashInitScript
  , .newPage 2 2
  , .goto 2 indexUrl
  , .expectVisible 2 (.id "lockTab") 5000
  , .expectNotVisible 2 (.id "journalTab") 5000
  , .screenshotPage 2 "jules-scratch/verification/locked_view.png"
  , .closeBrowser ]

/-- The locator page.locator(".entry", has_text=dream_title) of
verify_spacing.py line 26. -/
def entryLocator : Selector :=
  .classHasText "entry" "A Test Dream About Spacing"

/-- The Edit button locator entry_element.get_by_role("button", name="Edit")
of verify_spacing.py line 30, scoped inside the entry element. -/
def editButton : Selector := .child entryLocator (.roleButton "Edit")

/-- The locator entry_element.locator("textarea") of verify_spacing.py
line 35, scoped inside the entry element. -/
def entryTextarea : Selector := .child entryLocator (.tag "textarea")

/-- Body of def verify_spacing in verify_spacing.py, lines 10-38, one step
per browser call in source order.  The page argument is the single page the
boilerplate creates, numbered 1 (in its own fresh context 1).  Assertions
written without a timeout use the library default of 5000 ms. -/
def verify_spacing : List Step :=
  [ .onConsole 1
  , .goto 1 indexUrl
  , .fill 1 (.id "dreamTitle") "A Test Dream About Spacing"
  , .fill 1 (.id "dreamContent") "This is the content of the test dream."
  , .click 1 (.roleButton "Save Dream")
  , .expectVisible 1 entryLocator 5000
  , .dispatchEvent 1 editButton "click"
  , .expectVisible 1 entryTextarea 10000
  , .screenshotElem 1 entryLocator "jules-scratch/verification/verification.png" ]

/-- Exit status of verify_flash.py: the dunder-main guard at lines 46-47
runs asyncio.run(main()) with no exception handler, so the interpreter
exits 0 exactly when every step of main completed, and non-zero (modelled
as 1) when any step raised. -/
def verifyFlashExitCode (env : Env) : Nat :=
  if execOk env verify_flash_main then 0 else 1

/-- Exit status of verify_spacing.py: the boilerplate at lines 41-50
launches the browser and creates the page outside the try block, runs
verify_spacing inside try, catches every Exception (printing its message),
and closes the browser in finally.  So a raise inside verify_spacing is
swallowed; the process exits non-zero only when launch, page creation or
the final close itself raises. -/
def verifySpacingExitCode (env : Env) : Nat :=
  if env.launchOk then
    if env.newPageOk 1 then
      if env.closeOk then 0 else 1
    else 1
  else 1

/-- Full event trace of a verify_flash.py run including cleanup: leaving
the async with async_playwright block (on success or on an uncaught
exception) stops the Playwright driver, which terminates every browser it
launched. -/
def verifyFlashRunTrace (env : Env) : List Event :=
  let t := execTrace env verify_flash_main
  if Event.launched ∈ t then t ++ [Event.browserTerminated] else t

/-- Full event trace of a verify_spacing.py run including the module-level
boilerplate: launch and page creation outside try, the body under
try/except, browser.close in finally, and driver termination on leaving
the with sync_playwright block. -/
def verifySpacingRunTrace (env : Env) : List Event :=
  if env.launchOk then
    if env.newPageOk 1 then
      [Event.launched, Event.pageCreated 1 1]
        ++ execTrace env verify_spacing
        ++ (if env.closeOk then [Event.browserClosed] else [])
        ++ [Event.browserTerminated]
    else [Event.launched, Event.browserTerminated]
  else []

/-- The browser process is closed or terminated in the trace. -/
def browserDown (t : List Event) : Prop :=
  Event.browserClosed ∈ t ∨ Event.browserTerminated ∈ t

/-- The script registers console forwarding for page pg: the only such
registration in the sources is page.on("console", ...) printing each
message to standard output. -/
def forwardsConsole (steps : List Step) (pg : Nat) : Prop :=
  Step.onConsole pg ∈ steps

instance (steps : List Step) (pg : Nat) : Decidable (forwardsConsole steps pg) :=
  inferInstanceAs (Decidable (Step.onConsole pg ∈ steps))

/-- Whether a step is a negative visibility assertion. -/
def isNegAssertion : Step → Bool
  | .expectNotVisible _ _ _ => true
  | _ => false

/-- The locator a step queries, when it queries one. -/
def stepSelector : Step → Option Selector
  | .fill _ sel _ => some sel
  | .click _ sel => some sel
  | .dispatchEvent _ sel _ => some sel
  | .expectVisible _ sel _ => some sel
  | .expectNotVisible _ sel _ => some sel
  | .screenshotElem _ sel _ => some sel
  | _ => none

/-- Lines a run prints for console messages of page pg: the handler of
verify_spacing.py line 10 prints "Browser Console: " followed by the
message text; with no handler registered nothing is printed. -/
def consoleLines (steps : List Step) (env : Env) (pg : Nat) : List String :=
  if Step.onConsole pg ∈ steps then
    (env.consoleMessages pg).map (fun m => "Browser Console: " ++ m)
  else []

/-- Init scripts registered for context c, in registration order. -/
def initScriptsFor (steps : List Step) (c : Nat) : List StorageSet :=
  steps.filterMap fun s =>
    match s with
    | .addInitScript c2 ss => if c2 = c then some ss else none
    | _ => none

/-- Value under key in the storage of context c when a page of that
context loads: contexts have isolated storage, so only init scripts
registered for c apply; the last write to the key wins. -/
def seededValue (steps : List Step) (c : Nat) (key : String) : Option String :=
  (initScriptsFor steps c).foldl
    (fun acc ss => if ss.key = key then some ss.value else acc) none

/-- Oracle under which every operation succeeds and every assertion
passes. -/
def allPassEnv : Env :=
  { launchOk := true
  , newContextOk := fun _ => true
  , initScriptOk := fun _ => true
  , newPageOk := fun _ => true
  , gotoOk := fun _ => true
  , fillOk := fun _ _ => true
  , clickOk := fun _ _ => true
  , dispatchOk := fun _ _ _ => true
  , visibleWithin := fun _ _ _ => true
  , notVisibleWithin := fun _ _ _ => true
  , matchCount := fun _ _ => 1
  , screenshotOk := fun _ => true
  , closePageOk := fun _ => true
  , closeOk := true
  , initiallyVisible := fun _ _ => false
  , consoleMessages := fun _ => [] }

/-- Oracle under which nothing ever becomes visible, so every
to_be_visible assertion times out; every other operation succeeds. -/
def noVisEnv : Env :=
  { allPassEnv with visibleWithin := fun _ _ _ => false }

/-- Oracle identical to allPassEnv except that the application shows the
lock tab first on page 1, and page 1 emits one console message. -/
def lockFirstEnv : Env :=
  { allPassEnv with
      initiallyVisible := fun p s => p == 1 && s == Selector.id "lockTab"
    , consoleMessages := fun _ => ["hello"] }

/-- When every step of a list ran without raising, each single step did. -/
theorem execOk_mem {env : Env} {steps : List Step} (h : execOk env steps = true) :
    ∀ s ∈ steps, stepOk env s = true := by
  induction steps with
  | nil => intro s hs; cases hs
  | cons a rest ih =>
    rw [execOk, Bool.and_eq_true] at h
    intro s hs
    cases hs with
    | head => exact h.1
    | tail _ hmem => exact ih h.2 s hmem

/-- Every event of a fail-fast trace is an event some step of the list
could emit. -/
theorem execTrace_sub {env : Env} {steps : List Step} {e : Event}
    (h : e ∈ execTrace env steps) : e ∈ eventsOf steps := by
  induction steps with
  | nil => rw [execTrace] at h; simp at h
  | cons a rest ih =>
    rw [execTrace] at h
    cases hok : stepOk env a with
    | false => rw [hok] at h; simp at h
    | true =>
      rw [hok, if_pos rfl, List.mem_append] at h
      rw [eventsOf, List.mem_append]
      exact h.imp id ih

/-- Fail-fast cut: when the distinguished step raises, the trace of the
whole list only holds events of steps strictly before it. -/
theorem execTrace_cut {env : Env} {s : Step} (hs : stepOk env s = false) :
    ∀ (l1 : List Step) {l2 : List Step} {e : Event},
      e ∈ execTrace env (l1 ++ s :: l2) → e ∈ eventsOf l1 := by
  intro l1
  induction l1 with
  | nil =>
    intro l2 e h
    rw [List.nil_append, execTrace, hs] at h
    simp at h
  | cons a t ih =>
    intro l2 e h
    rw [List.cons_append, execTrace] at h
    cases hok : stepOk env a with
    | false => rw [hok] at h; simp at h
    | true =>
      rw [hok, if_pos rfl, List.mem_append] at h
      rw [eventsOf, List.mem_append]
      exact h.imp id ih

/-- Splitting a fail-fast trace at a list split: when the first part runs
clean the traces concatenate, otherwise the second part never runs. -/
theorem execTrace_append (env : Env) (l1 l2 : List Step) :
    execTrace env (l1 ++ l2) =
      if execOk env l1 then execTrace env l1 ++ execTrace env l2
      else execTrace env l1 := by
  induction l1 with
  | nil => simp [execTrace, execOk]
  | cons a t ih =>
    cases hok : stepOk env a with
    | false => simp [execTrace, execOk, hok]
    | true =>
      rw [List.cons_append, execTrace, execTrace, execOk, hok, if_pos rfl,
        if_pos rfl, Bool.true_and, ih]
      by_cases h2 : execOk env t = true
      · rw [if_pos h2, if_pos h2, List.append_assoc]
      · rw [if_neg h2, if_neg h2]

/-- When an event of the trace cannot come from the first part of a list
split, the first part ran clean. -/
theorem mem_trace_prefix_ok {env : Env} {l1 l2 : List Step} {e : Event}
    (h : e ∈ execTrace env (l1 ++ l2)) (hnot : e ∉ eventsOf l1) :
    execOk env l1 = true := by
  by_contra hko
  rw [execTrace_append, if_neg hko] at h
  exact hnot (execTrace_sub h)

/-- Reading off the oracle facts from a passed to_be_visible assertion:
the locator resolved to exactly one element and it became visible within
the timeout. -/
theorem expectVisible_ok {env : Env} {p : Nat} {s : Selector} {t : Nat}
    (h : stepOk env (.expectVisible p s t) = true) :
    env.matchCount p s = 1 ∧ env.visibleWithin p s t = true := by
  rw [stepOk, Bool.and_eq_true, beq_iff_eq] at h
  exact h

/-- When the journal-tab assertion (index 3) of verify_flash.py raises, the
trace only holds events of the three steps before it. -/
theorem flashCutJournal {env : Env} {e : Event}
    (hfail : stepOk env (.expectVisible 1 (.id "journalTab") 5000) = false)
    (h : e ∈ execTrace env verify_flash_main) :
    e ∈ eventsOf (verify_flash_main.take 3) := by
  have hrw : verify_flash_main = verify_flash_main.take 3
      ++ Step.expectVisible 1 (.id "journalTab") 5000 :: verify_flash_main.drop 4 := rfl
  rw [hrw] at h
  exact execTrace_cut hfail _ h

/-- When the lock-tab assertion (index 10) of verify_flash.py raises, the
trace only holds events of the ten steps before it. -/
theorem flashCutLock {env : Env} {e : Event}
    (hfail : stepOk env (.expectVisible 2 (.id "lockTab") 5000) = false)
    (h : e ∈ execTrace env verify_flash_main) :
    e ∈ eventsOf (verify_flash_main.take 10) := by
  have hrw : verify_flash_main = verify_flash_main.take 10
      ++ Step.expectVisible 2 (.id "lockTab") 5000 :: verify_flash_main.drop 11 := rfl
  rw [hrw] at h
  exact execTrace_cut hfail _ h

/-- When the journal-not-visible assertion (index 11) of verify_flash.py
raises, the trace only holds events of the eleven steps before it. -/
theorem flashCutNoJournal {env : Env} {e : Event}
    (hfail : stepOk env (.expectNotVisible 2 (.id "journalTab") 5000) = false)
    (h : e ∈ execTrace env verify_flash_main) :
    e ∈ eventsOf (verify_flash_main.take 11) := by
  have hrw : verify_flash_main = verify_flash_main.take 11
      ++ Step.expectNotVisible 2 (.id "journalTab") 5000 :: verify_flash_main.drop 12 := rfl
  rw [hrw] at h
  exact execTrace_cut hfail _ h

/-- When the entry assertion (index 5) of verify_spacing.py raises, the
trace only holds events of the five steps before it. -/
theorem spacingCutEntry {env : Env} {e : Event}
    (hfail : stepOk env (.expectVisible 1 entryLocator 5000) = false)
    (h : e ∈ execTrace env verify_spacing) :
    e ∈ eventsOf (verify_spacing.take 5) := by
  have hrw : verify_spacing = verify_spacing.take 5
      ++ Step.expectVisible 1 entryLocator 5000 :: verify_spacing.drop 6 := rfl
  rw [hrw] at h
  exact execTrace_cut hfail _ h

/-- When the textarea assertion (index 7) of verify_spacing.py raises, the
trace only holds events of the seven steps before it. -/
theorem spacingCutTextarea {env : Env} {e : Event}
    (hfail : stepOk env (.expectVisible 1 entryTextarea 10000) = false)
    (h : e ∈ execTrace env verify_spacing) :
    e ∈ eventsOf (verify_spacing.take 7) := by
  have hrw : verify_spacing = verify_spacing.take 7
      ++ Step.expectVisible 1 entryTextarea 10000 :: verify_spacing.drop 8 := rfl
  rw [hrw] at h
  exact execTrace_cut hfail _ h

/-- C1: in the locked-state scenario of verify_flash.py, the runner creates
a fresh browser context, registers on it an init script storing under key
dreamJournalPinHash the quoted string literal containing somehash (quotes
included), then creates the page and navigates — the init script therefore
runs before any script of the target page (documented add_init_script
behaviour) — and the scenario succeeds only if the lock tab locator
resolved uniquely and became visible within 5000 ms while the journal tab
was not visible within the default wait. -/
theorem C1_locked_scenario :
    verify_flash_main[6]? = some (.newContext 2) ∧
    verify_flash_main[7]? = some (.addInitScript 2 flashInitScript) ∧
    flashInitScript.key = "dreamJournalPinHash" ∧
    flashInitScript.value = "\"somehash\"" ∧
    verify_flash_main[8]? = some (.newPage 2 2) ∧
    verify_flash_main[9]? = some (.goto 2 indexUrl) ∧
    ∀ env : Env, execOk env (verify_flash_main.drop 6) = true →
      env.matchCount 2 (.id "lockTab") = 1 ∧
      env.visibleWithin 2 (.id "lockTab") 5000 = true ∧
      env.notVisibleWithin 2 (.id "journalTab") 5000 = true := by
  refine ⟨rfl, rfl, rfl, rfl, rfl, rfl, ?_⟩
  intro env h
  have h1 := execOk_mem h (.expectVisible 2 (.id "lockTab") 5000) (by decide)
  have h2 := execOk_mem h (.expectNotVisible 2 (.id "journalTab") 5000) (by decide)
  obtain ⟨hm, hv⟩ := expectVisible_ok h1
  rw [stepOk] at h2
  exact ⟨hm, hv, h2⟩

/-- Witness for C1 at the all-passing oracle. -/
theorem C1_locked_scenario_witness :
    allPassEnv.matchCount 2 (.id "lockTab") = 1 ∧
    allPassEnv.visibleWithin 2 (.id "lockTab") 5000 = true ∧
    allPassEnv.notVisibleWithin 2 (.id "journalTab") 5000 = true :=
  C1_locked_scenario.2.2.2.2.2.2 allPassEnv (by decide)

/-- C2: verify_spacing.py fills the title field with exactly the literal
title, the content field with exactly the literal content, clicks the
button with role button and accessible name Save Dream, and then asserts
visibility of the locator for class entry filtered by the literal title —
an assertion that passes exactly when one matching element resolves and is
visible — before the later dispatch step can run: whenever the dispatch
event appears in a trace, that assertion had passed. -/
theorem C2_save_dream :
    verify_spacing[2]? = some (.fill 1 (.id "dreamTitle") "A Test Dream About Spacing") ∧
    verify_spacing[3]? = some (.fill 1 (.id "dreamContent") "This is the content of the test dream.") ∧
    verify_spacing[4]? = some (.click 1 (.roleButton "Save Dream")) ∧
    verify_spacing[5]? = some (.expectVisible 1 entryLocator 5000) ∧
    entryLocator = .classHasText "entry" "A Test Dream About Spacing" ∧
    ∀ env : Env, Event.dispatched 1 editButton "click" ∈ execTrace env verify_spacing →
      env.matchCount 1 entryLocator = 1 ∧
      env.visibleWithin 1 entryLocator 5000 = true := by
  refine ⟨rfl, rfl, rfl, rfl, rfl, ?_⟩
  intro env h
  have hsplit : verify_spacing = verify_spacing.take 6 ++ verify_spacing.drop 6 :=
    (List.take_append_drop 6 verify_spacing).symm
  rw [hsplit] at h
  have hok : execOk env (verify_spacing.take 6) = true :=
    mem_trace_prefix_ok h (by decide)
  exact expectVisible_ok (execOk_mem hok (.expectVisible 1 entryLocator 5000) (by decide))

/-- Witness for C2 at the all-passing oracle. -/
theorem C2_save_dream_witness :
    allPassEnv.matchCount 1 entryLocator = 1 ∧
    allPassEnv.visibleWithin 1 entryLocator 5000 = true :=
  C2_save_dream.2.2.2.2.2 allPassEnv (by decide)

/-- C3: after the entry is visible, verify_spacing.py dispatches a raw
click event (the dispatchEvent step, distinct from the pointer-click step
kind) on the Edit button scoped inside that same entry, and the script
succeeds only if the textarea locator scoped inside that entry resolved
uniquely and became visible within 10000 ms. -/
theorem C3_edit_dispatch :
    verify_spacing[6]? = some (.dispatchEvent 1 editButton "click") ∧
    editButton = .child entryLocator (.roleButton "Edit") ∧
    verify_spacing[7]? = some (.expectVisible 1 entryTextarea 10000) ∧
    entryTextarea = .child entryLocator (.tag "textarea") ∧
    ∀ env : Env, execOk env verify_spacing = true →
      env.matchCount 1 entryTextarea = 1 ∧
      env.visibleWithin 1 entryTextarea 10000 = true := by
  refine ⟨rfl, rfl, rfl, rfl, ?_⟩
  intro env h
  exact expectVisible_ok (execOk_mem h (.expectVisible 1 entryTextarea 10000) (by decide))

/-- Witness for C3 at the all-passing oracle. -/
theorem C3_edit_dispatch_witness :
    allPassEnv.matchCount 1 entryTextarea = 1 ∧
    allPassEnv.visibleWithin 1 entryTextarea 10000 = true :=
  C3_edit_dispatch.2.2.2.2 allPassEnv (by decide)

/-- Counterexample to C4 as stated: under the oracle where nothing becomes
visible, the entry visibility assertion of verify_spacing.py raises (so a
step of the run raised a visibility failure), yet the process exit status
is zero, because the module-level except clause catches the exception. -/
theorem C4_counterexample :
    stepOk noVisEnv (.expectVisible 1 entryLocator 5000) = false ∧
    execOk noVisEnv verify_spacing = false ∧
    verifySpacingExitCode noVisEnv = 0 :=
  ⟨rfl, rfl, rfl⟩

/-- C4 amended: verify_flash.py exits zero exactly when every step of main
completed and non-zero when any step raised; verify_spacing.py catches any
exception of the verification body, so it exits zero exactly when launch,
page creation and the final browser close succeeded, regardless of whether
a visibility assertion raised. -/
theorem C4_exit_codes :
    ∀ env : Env,
      (verifyFlashExitCode env = 0 ↔ execOk env verify_flash_main = true) ∧
      (verifySpacingExitCode env = 0 ↔
        (env.launchOk = true ∧ env.newPageOk 1 = true ∧ env.closeOk = true)) := by
  intro env
  constructor
  · cases h : execOk env verify_flash_main <;> simp [verifyFlashExitCode, h]
  · cases h1 : env.launchOk <;> cases h2 : env.newPageOk 1 <;>
      cases h3 : env.closeOk <;> simp [verifySpacingExitCode, h1, h2, h3]

/-- Witness for C4 amended: both characterizations applied at concrete
oracles. -/
theorem C4_exit_codes_witness :
    verifyFlashExitCode allPassEnv = 0 ∧ verifySpacingExitCode noVisEnv = 0 :=
  ⟨(C4_exit_codes allPassEnv).1.mpr rfl, (C4_exit_codes noVisEnv).2.mpr ⟨rfl, rfl, rfl⟩⟩

/-- C5: each scenario screenshot is written only after every visibility
assertion of its scenario passed, and when an assertion of a scenario
raises, that scenario writes no screenshot and runs none of its later
steps (fail-fast).  The three scenarios are: unlocked (verify_flash.py
scenario 1, artifact unlocked_view.png, assertion on the journal tab),
locked (scenario 2, artifact locked_view.png, assertions on the lock tab
and against journal-tab visibility), and inline edit (verify_spacing.py,
artifact verification.png, assertions on the entry and the textarea). -/
theorem C5_screenshots_after_assertions :
    ∀ env : Env,
      (Event.screenshotWritten "jules-scratch/verification/unlocked_view.png"
          ∈ execTrace env verify_flash_main →
        stepOk env (.expectVisible 1 (.id "journalTab") 5000) = true) ∧
      (Event.screenshotWritten "jules-scratch/verification/locked_view.png"
          ∈ execTrace env verify_flash_main →
        stepOk env (.expectVisible 2 (.id "lockTab") 5000) = true ∧
        stepOk env (.expectNotVisible 2 (.id "journalTab") 5000) = true) ∧
      (Event.screenshotWritten "jules-scratch/verification/verification.png"
          ∈ execTrace env verify_spacing →
        stepOk env (.expectVisible 1 entryLocator 5000) = true ∧
        stepOk env (.expectVisible 1 entryTextarea 10000) = true) ∧
      (stepOk env (.expectVisible 1 (.id "journalTab") 5000) = false →
        Event.screenshotWritten "jules-scratch/verification/unlocked_view.png"
          ∉ execTrace env verify_flash_main ∧
        Event.pageClosed 1 ∉ execTrace env verify_flash_main) ∧
      (stepOk env (.expectVisible 2 (.id "lockTab") 5000) = false →
        Event.screenshotWritten "jules-scratch/verification/locked_view.png"
          ∉ execTrace env verify_flash_main ∧
        Event.negAssertionPassed 2 (.id "journalTab") ∉ execTrace env verify_flash_main ∧
        Event.browserClosed ∉ execTrace env verify_flash_main) ∧
      (stepOk env (.expectNotVisible 2 (.id "journalTab") 5000) = false →
        Event.screenshotWritten "jules-scratch/verification/locked_view.png"
          ∉ execTrace env verify_flash_main) ∧
      (stepOk env (.expectVisible 1 entryLocator 5000) = false →
        Event.screenshotWritten "jules-scratch/verification/verification.png"
          ∉ execTrace env verify_spacing ∧
        Event.dispatched 1 editButton "click" ∉ execTrace env verify_spacing) ∧
      (stepOk env (.expectVisible 1 entryTextarea 10000) = false →
        Event.screenshotWritten "jules-scratch/verification/verification.png"
          ∉ execTrace env verify_spacing) := by
  intro env
  refine ⟨?_, ?_, ?_, ?_, ?_, ?_, ?_, ?_⟩
  · intro h
    have hsplit : verify_flash_main =
        verify_flash_main.take 4 ++ verify_flash_main.drop 4 :=
      (List.take_append_drop 4 verify_flash_main).symm
    rw [hsplit] at h
    have hok := mem_trace_prefix_ok h (by decide)
    exact execOk_mem hok _ (by decide)
  · intro h
    have hsplit : verify_flash_main =
        verify_flash_main.take 12 ++ verify_flash_main.drop 12 :=
      (List.take_append_drop 12 verify_flash_main).symm
    rw [hsplit] at h
    have hok := mem_trace_prefix_ok h (by decide)
    exact ⟨execOk_mem hok _ (by decide), execOk_mem hok _ (by decide)⟩
  · intro h
    have hsplit : verify_spacing = verify_spacing.take 8 ++ verify_spacing.drop 8 :=
      (List.take_append_drop 8 verify_spacing).symm
    rw [hsplit] at h
    have hok := mem_trace_prefix_ok h (by decide)
    exact ⟨execOk_mem hok _ (by decide), execOk_mem hok _ (by decide)⟩
  · intro hfail
    exact ⟨fun h => absurd (flashCutJournal hfail h) (by decide),
      fun h => absurd (flashCutJournal hfail h) (by decide)⟩
  · intro hfail
    exact ⟨fun h => absurd (flashCutLock hfail h) (by decide),
      fun h => absurd (flashCutLock hfail h) (by decide),
      fun h => absurd (flashCutLock hfail h) (by decide)⟩
  · intro hfail
    exact fun h => absurd (flashCutNoJournal hfail h) (by decide)
  · intro hfail
    exact ⟨fun h => absurd (spacingCutEntry hfail h) (by decide),
      fun h => absurd (spacingCutEntry hfail h) (by decide)⟩
  · intro hfail
    exact fun h => absurd (spacingCutTextarea hfail h) (by decide)

/-- Witness for C5: a passing-side hypothesis discharged at the
all-passing oracle and a failing-side hypothesis discharged at the oracle
where nothing becomes visible. -/
theorem C5_screenshots_after_assertions_witness :
    stepOk allPassEnv (.expectVisible 1 (.id "journalTab") 5000) = true ∧
    (Event.screenshotWritten "jules-scratch/verification/unlocked_view.png"
        ∉ execTrace noVisEnv verify_flash_main ∧
      Event.pageClosed 1 ∉ execTrace noVisEnv verify_flash_main) ∧
    Event.screenshotWritten "jules-scratch/verification/verification.png"
      ∉ execTrace noVisEnv verify_spacing :=
  ⟨(C5_screenshots_after_assertions allPassEnv).1 (by decide),
   (C5_screenshots_after_assertions noVisEnv).2.2.2.1 rfl,
   ((C5_screenshots_after_assertions noVisEnv).2.2.2.2.2.2.1 rfl).1⟩

/-- C6: on every exit path the browser process ends up closed or
terminated.  verify_flash.py closes it explicitly on success, and on any
uncaught exception the async context-manager exit stops the Playwright
driver, which terminates every browser it launched; verify_spacing.py
closes it in the finally clause and the sync context-manager exit stops
the driver as well. -/
theorem C6_browser_cleanup :
    ∀ env : Env, env.launchOk = true →
      browserDown (verifyFlashRunTrace env) ∧
      browserDown (verifySpacingRunTrace env) := by
  intro env h
  constructor
  · have hmem : Event.launched ∈ execTrace env verify_flash_main := by
      rw [show verify_flash_main = Step.launch :: verify_flash_main.drop 1 from rfl,
        execTrace]
      simp only [stepOk, h, if_pos]
      exact List.mem_append_left _ (by simp [stepEvents])
    rw [verifyFlashRunTrace]
    simp only [hmem, if_pos]
    exact Or.inr (List.mem_append_right _ (by simp))
  · rw [verifySpacingRunTrace, h, if_pos rfl]
    cases h2 : env.newPageOk 1 <;> simp [browserDown]

/-- Witness for C6 at the all-passing oracle. -/
theorem C6_browser_cleanup_witness :
    browserDown (verifyFlashRunTrace allPassEnv) ∧
    browserDown (verifySpacingRunTrace allPassEnv) :=
  C6_browser_cleanup allPassEnv rfl

/-- Counterexample to C7 as stated: under an oracle where the application
shows the lock tab first on page 1 (and everything passes), the whole
fresh-state scenario of verify_flash.py (its six steps through page close)
still succeeds — the scenario checks nothing about the lock tab, so lock
tab being the initially visible element does not make it fail. -/
theorem C7_counterexample :
    execOk lockFirstEnv (verify_flash_main.take 6) = true ∧
    lockFirstEnv.initiallyVisible 1 (.id "lockTab") = true := by
  exact ⟨by decide, by decide⟩

/-- C7 amended: the fresh-state scenario of verify_flash.py requires only
that the journal tab locator resolves uniquely and becomes visible within
the 5000 ms timeout; it makes no assertion about the lock tab. -/
theorem C7_unlocked_scenario :
    verify_flash_main[3]? = some (.expectVisible 1 (.id "journalTab") 5000) ∧
    (verify_flash_main.take 6).countP isNegAssertion = 0 ∧
    (verify_flash_main.take 6).countP
      (fun s => stepSelector s == some (Selector.id "lockTab")) = 0 ∧
    ∀ env : Env, execOk env (verify_flash_main.take 6) = true →
      env.matchCount 1 (.id "journalTab") = 1 ∧
      env.visibleWithin 1 (.id "journalTab") 5000 = true := by
  refine ⟨rfl, by decide, by decide, ?_⟩
  intro env h
  exact expectVisible_ok (execOk_mem h (.expectVisible 1 (.id "journalTab") 5000) (by decide))

/-- Witness for C7 amended at the all-passing oracle. -/
theorem C7_unlocked_scenario_witness :
    allPassEnv.matchCount 1 (.id "journalTab") = 1 ∧
    allPassEnv.visibleWithin 1 (.id "journalTab") 5000 = true :=
  C7_unlocked_scenario.2.2.2 allPassEnv (by decide)

/-- Counterexample to C8 as stated: verify_flash.py loads two pages but
registers console forwarding for neither, so console output of those pages
is not printed — with page 1 emitting a message, the run prints no
Browser Console line for it. -/
theorem C8_counterexample :
    Step.goto 1 indexUrl ∈ verify_flash_main ∧
    Step.goto 2 indexUrl ∈ verify_flash_main ∧
    ¬ forwardsConsole verify_flash_main 1 ∧
    ¬ forwardsConsole verify_flash_main 2 ∧
    consoleLines verify_flash_main lockFirstEnv 1 = [] := by
  exact ⟨by decide, by decide, by decide, by decide, by decide⟩

/-- C8 amended: only verify_spacing.py forwards console output — it
registers the handler as its first step, before navigation, and prints
each message prefixed with Browser Console; the pages of verify_flash.py
have no console forwarding. -/
theorem C8_console_forwarding :
    verify_spacing[0]? = some (.onConsole 1) ∧
    verify_spacing[1]? = some (.goto 1 indexUrl) ∧
    forwardsConsole verify_spacing 1 ∧
    consoleLines verify_spacing lockFirstEnv 1 = ["Browser Console: hello"] ∧
    consoleLines verify_flash_main lockFirstEnv 1 = [] ∧
    consoleLines verify_flash_main lockFirstEnv 2 = [] := by
  exact ⟨rfl, rfl, by decide, by decide, by decide, by decide⟩

/-- C9: the storage seeding of verify_flash.py targets only context 2, the
context created for the locked-state scenario: context 1 (the fresh
context implicitly created for the page of scenario 1) and the context of
the verify_spacing.py page have no registered init script, so — contexts
having isolated storage — their pages load with no value under
dreamJournalPinHash, while pages of context 2 load with the seeded quoted
literal; moreover scenario 1 has already closed its page (index 5) before
the seeding step (index 7) even runs. -/
theorem C9_context_isolation :
    verify_flash_main[1]? = some (.newPage 1 1) ∧
    verify_flash_main[8]? = some (.newPage 2 2) ∧
    verify_flash_main[5]? = some (.closePage 1) ∧
    verify_flash_main[7]? = some (.addInitScript 2 flashInitScript) ∧
    initScriptsFor verify_flash_main 1 = [] ∧
    seededValue verify_flash_main 1 "dreamJournalPinHash" = none ∧
    seededValue verify_flash_main 2 "dreamJournalPinHash" = some "\"somehash\"" ∧
    initScriptsFor verify_spacing 1 = [] := by
  exact ⟨rfl, rfl, rfl, rfl, rfl, rfl, rfl, rfl⟩

/-- C10: when the journal-tab assertion of the first scenario of
verify_flash.py raises, nothing of the second scenario runs: no context is
created, no init script is registered, the second page is not created,
neither locked-state assertion passes, and locked_view.png is not
written. -/
theorem C10_first_failure_blocks_second :
    ∀ env : Env, stepOk env (.expectVisible 1 (.id "journalTab") 5000) = false →
      Event.contextCreated 2 ∉ execTrace env verify_flash_main ∧
      Event.initScriptAdded 2 flashInitScript ∉ execTrace env verify_flash_main ∧
      Event.pageCreated 2 2 ∉ execTrace env verify_flash_main ∧
      Event.assertionPassed 2 (.id "lockTab") ∉ execTrace env verify_flash_main ∧
      Event.negAssertionPassed 2 (.id "journalTab") ∉ execTrace env verify_flash_main ∧
      Event.screenshotWritten "jules-scratch/verification/locked_view.png"
        ∉ execTrace env verify_flash_main := by
  intro env hfail
  exact ⟨fun h => absurd (flashCutJournal hfail h) (by decide),
    fun h => absurd (flashCutJournal hfail h) (by decide),
    fun h => absurd (flashCutJournal hfail h) (by decide),
    fun h => absurd (flashCutJournal hfail h) (by decide),
    fun h => absurd (flashCutJournal hfail h) (by decide),
    fun h => absurd (flashCutJournal hfail h) (by decide)⟩

/-- Witness for C10 at the oracle where nothing becomes visible. -/
theorem C10_first_failure_blocks_second_witness :
    Event.contextCreated 2 ∉ execTrace noVisEnv verify_flash_main ∧
    Event.initScriptAdded 2 flashInitScript ∉ execTrace noVisEnv verify_flash_main ∧
    Event.pageCreated 2 2 ∉ execTrace noVisEnv verify_flash_main ∧
    Event.assertionPassed 2 (.id "lockTab") ∉ execTrace noVisEnv verify_flash_main ∧
    Event.negAssertionPassed 2 (.id "journalTab") ∉ execTrace noVisEnv verify_flash_main ∧
    Event.screenshotWritten "jules-scratch/verification/locked_view.png"
      ∉ execTrace noVisEnv verify_flash_main :=
  C10_first_failure_blocks_second noVisEnv rfl

end DreamVerify
